import Mathlib

/-!
# Telemetry bootstrap of `medium-observability-stack`

A shallow embedding of `telemetry/telemetry.go` and `main.go`.

The program is glue over external libraries (the OpenTelemetry SDK, the Jaeger
exporter, gin).  Everything the libraries decide is an input of the model, collected in
`World`: the process environment, the outcome of `jaeger.New`, what each resource
detector reports in a given environment, and whether `r.Run()` ever returns.
Everything the program does to the outside is recorded in `State`: the global tracer
provider, the providers built so far, the entries the program itself writes through
package `log`, and the sequence of library calls (`trace`).  What the libraries write to
the standard logger on their own during a call is again an input (`World.libraryLog`).

`log.Fatalf` ends the process, so functions that may call it return an `Outcome`.
The `context.Context` argument is `context.Background()` throughout and is left out.
-/

set_option autoImplicit false

namespace telemetry

/-! ## Data model -/

/-- A Go `error` value, represented by the text of its `Error()` method. -/
abbrev GoError := String

/-- An attribute value (`attribute.Value`). -/
inductive Value where
  | str (s : String)
  | int (i : Int)
  | bool (b : Bool)
  | strs (l : List String)
  deriving DecidableEq, Repr

/-- An attribute (`attribute.KeyValue`). -/
structure KeyValue where
  key : String
  value : Value
  deriving DecidableEq, Repr

/-- A resource (`resource.Resource`): a schema URL and a set of attributes, kept as a
list with at most one entry per key when built through `upsert`. -/
structure Resource where
  schemaURL : String
  attrs : List KeyValue
  deriving DecidableEq, Repr

/-- The options `newResource` hands to `resource.New`. -/
inductive ResourceOption where
  | WithFromEnv
  | WithProcess
  | WithTelemetrySDK
  | WithHost
  | WithAttributes (kvs : List KeyValue)
  deriving DecidableEq, Repr

/-- The sampler configurations the program can build (`trace.Sampler`). -/
inductive Sampler where
  | AlwaysSample
  | TraceIDRatioBased (fraction : ℚ)
  | ParentBased (root : Sampler)
  deriving DecidableEq, Repr

/-- Options of the collector endpoint (`jaeger.CollectorEndpointOption`). -/
inductive CollectorEndpointOption where
  | WithEndpoint (url : String)
  deriving DecidableEq, Repr

/-- The argument of `jaeger.New` (`jaeger.EndpointOption`). -/
inductive EndpointOption where
  | WithCollectorEndpoint (options : List CollectorEndpointOption)
  deriving DecidableEq, Repr

/-- A `*jaeger.Exporter`, known only by its identity. -/
structure Exporter where
  ref : Nat
  deriving DecidableEq, Repr

/-- The options `InitProviderWithJaegerExporter` hands to `trace.NewTracerProvider`. -/
inductive TracerProviderOption where
  | WithSampler (s : Sampler)
  | WithBatcher (e : Exporter)
  | WithResource (r : Resource)
  deriving DecidableEq, Repr

/-- A `*trace.TracerProvider`: its identity (the number of providers built before it)
and the options it was built with. -/
structure TracerProvider where
  id : Nat
  options : List TracerProviderOption
  deriving DecidableEq, Repr

/-- A Go value of type `func(context.Context) error`: `nil`, or the method value
`tp.Shutdown` bound to its receiver. -/
inductive FuncValue where
  | nil
  | Shutdown (receiver : TracerProvider)
  deriving DecidableEq, Repr

/-- Calls that leave the program, in the order they happen. -/
inductive Event where
  | getenv (key : String)
  | jaegerNew (o : EndpointOption)
  | newBatcher (e : Exporter)
  | resourceNew (opts : List ResourceOption)
  | newTracerProvider (tp : TracerProvider)
  | setTracerProvider (tp : TracerProvider)
  | ginDefault
  | use (middlewareService : String)
  | route (method : String) (path : String)
  | run
  | runReturned
  | call (f : FuncValue)
  deriving DecidableEq, Repr

/-- What the program has done to the outside so far. `global` is the tracer provider
`otel.GetTracerProvider` would hand out (`none`: the default no-op delegate); `log`
holds the entries the program itself writes through package `log`, one per call. -/
structure State where
  global : Option TracerProvider
  providers : List TracerProvider
  log : List String
  trace : List Event
  deriving DecidableEq, Repr

/-- What one resource detector of the SDK reports: the schema URL and attributes it
found and, when its probe failed, the error. -/
structure Detected where
  schemaURL : String
  attrs : List KeyValue
  err : Option GoError
  deriving DecidableEq, Repr

/-- How `r.Run()` ends: it returns (with the error of `http.ListenAndServe`, which
`main` drops), or it serves for ever. -/
inductive RunOutcome where
  | returns (err : Option GoError)
  | servesForever
  deriving DecidableEq, Repr

/-- Everything decided outside the program. `libraryLog` gives the entries a library
call writes to the standard logger on its own, for instance the error handler of the
SDK reporting a malformed `OTEL_RESOURCE_ATTRIBUTES`. -/
structure World where
  environ : List (String × String)
  jaegerNew : EndpointOption → Except GoError Exporter
  probe : List (String × String) → ResourceOption → Detected
  run : RunOutcome
  libraryLog : Event → List String

/-- How a call ends: it returns a value, the process exits (`os.Exit`, deferred calls
are not run), the goroutine panics, or the call never returns. -/
inductive Outcome (α : Type) where
  | returned (a : α) (s : State)
  | exited (code : Nat) (s : State)
  | panicked (msg : String) (s : State)
  | blocked (s : State)
  deriving DecidableEq, Repr

/-- The state a call leaves behind. -/
def Outcome.state {α : Type} : Outcome α → State
  | .returned _ s => s
  | .exited _ s => s
  | .panicked _ s => s
  | .blocked s => s

/-- Sequencing: the continuation runs only when the call returned. -/
def Outcome.bind {α β : Type} (o : Outcome α) (f : α → State → Outcome β) : Outcome β :=
  match o with
  | .returned a s => f a s
  | .exited c s => .exited c s
  | .panicked m s => .panicked m s
  | .blocked s => .blocked s

/-- Record a library call. -/
def State.emit (s : State) (e : Event) : State :=
  { s with trace := s.trace ++ [e] }

/-! ## Standard library -/

/-- The value `os.Getenv` reads: the first entry for the key, the empty string when there
is none. -/
def World.getenv (w : World) (key : String) : String :=
  (w.environ.lookup key).getD ""

/-- Modelled from the spec: `os.Getenv` of the Go standard library, which is not part of
the sources. It reads one variable; an absent variable reads as the empty string. -/
def os_Getenv (w : World) (key : String) (s : State) : String × State :=
  (w.getenv key, s.emit (.getenv key))

/-- Modelled from the spec: `log.Fatalf` of the Go standard library, which is not part of
the sources. The formatted text goes to the log as one entry and the process exits with
status 1. The caller formats the text (`%s` and `%v` of an error print its text). -/
def log_Fatalf {α : Type} (text : String) (s : State) : Outcome α :=
  .exited 1 { s with log := s.log ++ [text] }

/-! ## `telemetry.go` -/

/-- Go `getSampler`. -/
def getSampler (w : World) (s : State) : Sampler × State :=
  let (ENV, s1) := os_Getenv w "GO_ENV" s
  match ENV with
  | "development" => (.AlwaysSample, s1)
  | "production" => (.ParentBased (.TraceIDRatioBased 0.5), s1)
  | _ => (.AlwaysSample, s1)

/-- The argument `exporterToJaeger` builds for `jaeger.New`. -/
def collectorArg : EndpointOption :=
  .WithCollectorEndpoint [.WithEndpoint "http://localhost:14278/api/traces"]

/-- Go `exporterToJaeger`. -/
def exporterToJaeger (w : World) (s : State) : Except GoError Exporter × State :=
  let OPEN_TELEMETRY_COLLECTOR_URL := "http://localhost:14278/api/traces"
  let arg := EndpointOption.WithCollectorEndpoint [.WithEndpoint OPEN_TELEMETRY_COLLECTOR_URL]
  (w.jaegerNew arg, s.emit (.jaegerNew arg))

/-! ### The SDK's `resource.New` -/

/-- The key `semconv.ServiceNameKey` of the semantic conventions package. -/
def semconv_ServiceNameKey : String := "service.name"

/-- Modelled from the spec: adding an attribute to an attribute set of the OpenTelemetry
SDK, which is a library and not part of the sources. The entry with the same key is
replaced if there is one. -/
def upsert : List KeyValue → KeyValue → List KeyValue
  | [], kv => [kv]
  | x :: xs, kv => if x.key = kv.key then kv :: xs else x :: upsert xs kv

/-- The value a resource has for a key. -/
def Resource.lookup (r : Resource) (key : String) : Option Value :=
  (r.attrs.find? (fun kv => kv.key = key)).map (fun kv => kv.value)

/-- Modelled from the spec: `resource.Merge` of the OpenTelemetry SDK, which is a library
and not part of the sources; the details follow its documentation. The attributes of `b`
replace those of `a` with the same key; two different non-empty schema URLs are a
conflict, reported as an error with the empty resource. `a` is `none` for a nil
pointer. -/
def resource_Merge (a : Option Resource) (b : Resource) : Resource × Option GoError :=
  match a with
  | none => (b, none)
  | some a =>
    if a.schemaURL = "" then (⟨b.schemaURL, b.attrs.foldl upsert a.attrs⟩, none)
    else if b.schemaURL = "" ∨ a.schemaURL = b.schemaURL then
      (⟨a.schemaURL, b.attrs.foldl upsert a.attrs⟩, none)
    else (⟨"", []⟩, some "cannot merge resource due to conflicting Schema URL")

/-- Modelled from the spec: the detectors behind the options of `resource.New`, which
belong to the OpenTelemetry SDK and are not part of the sources. `WithAttributes` builds
a schemaless resource from its arguments (attributes with an empty key are dropped, the
last value given for a key is kept) and cannot fail; the other four probe the
environment, the process, the SDK and the host, and report what the world decides. -/
def ResourceOption.detect (w : World) : ResourceOption → Detected
  | .WithAttributes kvs => ⟨"", (kvs.filter fun kv => kv.key ≠ "").foldl upsert [], none⟩
  | .WithFromEnv => w.probe w.environ .WithFromEnv
  | .WithProcess => w.probe w.environ .WithProcess
  | .WithTelemetrySDK => w.probe w.environ .WithTelemetrySDK
  | .WithHost => w.probe w.environ .WithHost

/-- Modelled from the spec: one round of the detection loop of `resource.New`
(OpenTelemetry SDK, not part of the sources). A detector that fails adds its error and
is skipped; otherwise its resource is merged over what was found so far, and a failed
merge adds its error. -/
def detectStep (w : World) (acc : Option Resource × List GoError) (o : ResourceOption) :
    Option Resource × List GoError :=
  let d := o.detect w
  match d.err with
  | some e => (acc.1, acc.2 ++ [e])
  | none =>
    match resource_Merge acc.1 ⟨d.schemaURL, d.attrs⟩ with
    | (r, none) => (some r, acc.2)
    | (r, some e) => (some r, acc.2 ++ [e])

/-- Modelled from the spec: `resource.New` of the OpenTelemetry SDK, which is a library
and not part of the sources; the details follow its documentation. The detectors run in
the order of the options and each result is merged over the earlier ones; the error is
nil exactly when no detector and no merge failed, and otherwise collects the texts of
all failures. -/
def resource_New (w : World) (opts : List ResourceOption) : Resource × Option GoError :=
  let (acc, errInfo) := opts.foldl (detectStep w) (none, [])
  let (res, err2) := resource_Merge acc ⟨"", []⟩
  match errInfo, err2 with
  | [], e => (res, e)
  | es, none => (res, some ("detecting resources: [" ++ " ".intercalate es ++ "]"))
  | es, some e => (res, some ("detecting resources: [" ++ " ".intercalate (es ++ [e]) ++ "]"))

/-- The option list written in `newResource`, in the order it is written. -/
def newResourceOptions : List ResourceOption :=
  [ .WithFromEnv,
    .WithProcess,
    .WithTelemetrySDK,
    .WithHost,
    .WithAttributes
      [ ⟨semconv_ServiceNameKey, .str "OBSERVABILITY-MEDIUM-SERVICE-EXAMPLE"⟩,
        ⟨"environment", .str "DEVELOPMENT"⟩ ] ]

/-- The explicit attributes of `newResource`, the argument of its `WithAttributes`. -/
def fixedAttributes : List KeyValue :=
  [ ⟨semconv_ServiceNameKey, .str "OBSERVABILITY-MEDIUM-SERVICE-EXAMPLE"⟩,
    ⟨"environment", .str "DEVELOPMENT"⟩ ]

/-- Go `newResource`. -/
def newResource (w : World) (s : State) : Outcome Resource :=
  let (res, err) := resource_New w newResourceOptions
  let s1 := s.emit (.resourceNew newResourceOptions)
  match err with
  | some e => log_Fatalf ("Failed to create resource" ++ ": " ++ e) s1
  | none => .returned res s1

/-! ### The provider -/

/-- Modelled from the spec: `trace.WithBatcher` of the OpenTelemetry SDK, which is not
part of the sources. It builds the batching span processor over the exporter. -/
def trace_WithBatcher (e : Exporter) (s : State) : TracerProviderOption × State :=
  (.WithBatcher e, s.emit (.newBatcher e))

/-- Modelled from the spec: `trace.NewTracerProvider` of the OpenTelemetry SDK, which is
not part of the sources. It builds a new provider that holds the given options. -/
def trace_NewTracerProvider (opts : List TracerProviderOption) (s : State) :
    TracerProvider × State :=
  let tp : TracerProvider := ⟨s.providers.length, opts⟩
  (tp, { s with providers := s.providers ++ [tp], trace := s.trace ++ [.newTracerProvider tp] })

/-- Modelled from the spec: `otel.SetTracerProvider`, which is not part of the sources.
The provider becomes the global one and replaces whatever was installed. -/
def otel_SetTracerProvider (tp : TracerProvider) (s : State) : State :=
  { s with global := some tp, trace := s.trace ++ [.setTracerProvider tp] }

/-- Go `InitProviderWithJaegerExporter`. The arguments of `trace.NewTracerProvider` are
evaluated from left to right. -/
def InitProviderWithJaegerExporter (w : World) (s : State) :
    Outcome (FuncValue × Option GoError) :=
  match exporterToJaeger w s with
  | (.error err, s1) => log_Fatalf ("error: " ++ err) s1
  | (.ok exp, s1) =>
    let (smp, s2) := getSampler w s1
    let (batcher, s3) := trace_WithBatcher exp s2
    (newResource w s3).bind fun res s4 =>
      let (tp, s5) := trace_NewTracerProvider [.WithSampler smp, batcher, .WithResource res] s4
      let s6 := otel_SetTracerProvider tp s5
      .returned (.Shutdown tp, none) s6

/-! ## `main.go` -/

/-- Calling a function value: a nil function panics, `tp.Shutdown` is handed to the SDK. -/
def callFunc (f : FuncValue) (s : State) : Outcome Unit :=
  match f with
  | .nil => .panicked "invalid memory address or nil pointer dereference" s
  | .Shutdown tp => .returned () (s.emit (.call (.Shutdown tp)))

/-- Modelled from the spec: `r.Run()` of gin, which is not part of the sources. It serves
until the listener fails, or for ever. -/
def gin_Run (w : World) (s : State) : Outcome (Option GoError) :=
  match w.run with
  | .servesForever => .blocked (s.emit .run)
  | .returns err => .returned err ((s.emit .run).emit .runReturned)

/-- Go `main`. The deferred `shutdown(ctx)` runs when `main` returns, that is after
`r.Run()` has returned; it does not run when the process exits through `log.Fatalf`. -/
def main (w : World) (s : State) : Outcome Unit :=
  (InitProviderWithJaegerExporter w s).bind fun (shutdown, err) s1 =>
    match err with
    | some e => log_Fatalf ("Failed to initialize opentelemetry provider" ++ ": " ++ e) s1
    | none =>
      let s2 := s1.emit .ginDefault
      let s3 := s2.emit (.use "OBSERVABILITY-MEDIUM-SERVICE-EXAMPLE")
      let s4 := s3.emit (.route "GET" "/ping")
      (gin_Run w s4).bind fun _ s5 =>
        callFunc shutdown s5

/-! ## Vocabulary of the properties -/

/-- The events a run from `s` to `s'` added to the trace. -/
def State.newEvents (s s' : State) : List Event := s'.trace.drop s.trace.length

/-- The lines a run from `s` to `s'` added to the log. -/
def State.newLog (s s' : State) : List String := s'.log.drop s.log.length

/-- Events of the HTTP side of `main`: building the engine, registering middleware and
routes, serving. -/
def Event.isServe : Event → Bool
  | .ginDefault => true
  | .use _ => true
  | .route _ _ => true
  | .run => true
  | .runReturned => true
  | _ => false

/-- Events that install a global tracer provider. -/
def Event.isInstall : Event → Bool
  | .setTracerProvider _ => true
  | _ => false

/-- Events that build a tracer provider. -/
def Event.isNewProvider : Event → Bool
  | .newTracerProvider _ => true
  | _ => false

/-- Events that invoke a function value (the shutdown hook). -/
def Event.isCall : Event → Bool
  | .call _ => true
  | _ => false

/-- The three stages of the bootstrap, numbered 4.1 to 4.3 in the specification. -/
inductive Stage where
  | resource
  | sampler
  | exporter
  deriving DecidableEq, Repr

/-- The stage a library call belongs to: `resource.New` is the resource builder, reading
the environment flag is the sampler selector, `jaeger.New` is the exporter constructor. -/
def Event.stage : Event → Option Stage
  | .resourceNew _ => some .resource
  | .getenv _ => some .sampler
  | .jaegerNew _ => some .exporter
  | _ => none

/-- The stages of a run, in the order they were invoked. -/
def stagesOf (evs : List Event) : List Stage := evs.filterMap Event.stage

/-- The provider `InitProviderWithJaegerExporter` builds when started in state `s` with
the exporter `exp`. -/
def builtProvider (w : World) (s : State) (exp : Exporter) : TracerProvider :=
  ⟨s.providers.length,
    [.WithSampler (getSampler w s).1, .WithBatcher exp,
     .WithResource (resource_New w newResourceOptions).1]⟩

/-! ## Sample worlds -/

/-- The start of the process: no provider installed, nothing logged, nothing called. -/
def processStart : State := ⟨none, [], [], []⟩

/-- A process in which a provider without options was built and installed earlier. -/
def processWithProvider : State := ⟨some ⟨0, []⟩, [⟨0, []⟩], [], []⟩

/-- A world with the given environment in which `jaeger.New` and the host detector fail
with the given errors (if any). The environment detector reports the service name the
environment declares, so that it competes with the fixed one. -/
def sampleWorld (environ : List (String × String)) (exporterErr hostErr : Option GoError)
    (run : RunOutcome) : World where
  environ := environ
  jaegerNew := fun _ =>
    match exporterErr with
    | some e => .error e
    | none => .ok ⟨1⟩
  probe := fun env o =>
    match o with
    | .WithFromEnv =>
      match env.lookup "OTEL_SERVICE_NAME" with
      | some n => ⟨"", [⟨"service.name", .str n⟩], none⟩
      | none => ⟨"", [], none⟩
    | .WithProcess => ⟨"https://opentelemetry.io/schemas/1.4.0", [⟨"process.pid", .int 4242⟩], none⟩
    | .WithTelemetrySDK =>
      ⟨"https://opentelemetry.io/schemas/1.4.0", [⟨"telemetry.sdk.language", .str "go"⟩], none⟩
    | .WithHost =>
      ⟨"https://opentelemetry.io/schemas/1.4.0", [⟨"host.name", .str "box"⟩], hostErr⟩
    | .WithAttributes _ => ⟨"", [], none⟩
  run := run
  libraryLog := fun _ => []

/-- A production run: the flag is `production`, the environment declares another service
name, both constructions succeed, and the server is eventually closed. -/
def worldProduction : World :=
  sampleWorld [("OTEL_SERVICE_NAME", "other"), ("GO_ENV", "production")] none none
    (.returns (some "http: Server closed"))

/-- The same flag in a different environment. -/
def worldProductionBare : World :=
  sampleWorld [("GO_ENV", "production"), ("HOME", "/root")] none none .servesForever

/-- The collector endpoint is rejected; the host detector would fail as well. -/
def worldBothFail : World :=
  sampleWorld [("GO_ENV", "production")] (some "invalid collector URL")
    (some "hostname unavailable") .servesForever

/-- The exporter is built, the host detector fails. -/
def worldNoHost : World :=
  sampleWorld [] none (some "hostname unavailable") .servesForever

theorem getSampler_snd (w : World) (s : State) : (getSampler w s).2 = s.emit (.getenv "GO_ENV") := by
  unfold getSampler os_Getenv
  simp only
  split <;> rfl

theorem getSampler_fst (w : World) (s : State) :
    (getSampler w s).1 = if w.getenv "GO_ENV" = "production"
      then Sampler.ParentBased (.TraceIDRatioBased 0.5) else Sampler.AlwaysSample := by
  unfold getSampler os_Getenv
  simp only
  split
  · next h => simp [h]
  · next h => simp [h]
  · next h1 h2 => rw [if_neg (fun h => h2 h)]

theorem find_upsert (xs : List KeyValue) (kv : KeyValue) (k : String) :
    (upsert xs kv).find? (fun x => x.key = k) =
      if kv.key = k then some kv else xs.find? (fun x => x.key = k) := by
  induction xs with
  | nil => by_cases hk : kv.key = k <;> simp [upsert, List.find?, hk]
  | cons x xs ih =>
    unfold upsert
    by_cases hx : x.key = kv.key
    · by_cases hk : kv.key = k
      · simp [hx, hk, List.find?]
      · simp [hx, hk, List.find?]
    · by_cases hk : kv.key = k
      · have : ¬ x.key = k := fun h => hx (h.trans hk.symm)
        simp [hx, hk, List.find?, this, ih]
      · simp [hx, hk, List.find?, ih]


theorem fixedAttributes_set :
    (fixedAttributes.filter fun kv => kv.key ≠ "").foldl upsert [] = fixedAttributes := by
  simp [fixedAttributes, semconv_ServiceNameKey, upsert, List.filter]

theorem detectStep_fixedAttributes (w : World) (acc : Option Resource × List GoError) :
    ∃ r, detectStep w acc (.WithAttributes fixedAttributes) = (some r, acc.2)
      ∧ r.lookup semconv_ServiceNameKey = some (.str "OBSERVABILITY-MEDIUM-SERVICE-EXAMPLE")
      ∧ r.lookup "environment" = some (.str "DEVELOPMENT") := by
  obtain ⟨a, errs⟩ := acc
  cases a with
  | none =>
    refine ⟨⟨"", fixedAttributes⟩, ?_, ?_, ?_⟩
    · simp only [detectStep, ResourceOption.detect, resource_Merge, fixedAttributes_set]
    · simp [Resource.lookup, fixedAttributes, semconv_ServiceNameKey, List.find?]
    · simp [Resource.lookup, fixedAttributes, semconv_ServiceNameKey, List.find?]
  | some a =>
    refine ⟨⟨a.schemaURL, fixedAttributes.foldl upsert a.attrs⟩, ?_, ?_, ?_⟩
    · simp only [detectStep, ResourceOption.detect, fixedAttributes_set]
      by_cases h : a.schemaURL = "" <;> simp [resource_Merge, h]
    · simp [Resource.lookup, fixedAttributes, semconv_ServiceNameKey, find_upsert]
    · simp [Resource.lookup, fixedAttributes, semconv_ServiceNameKey, find_upsert]

theorem resource_Merge_empty (r : Resource) : resource_Merge (some r) ⟨"", []⟩ = (r, none) := by
  unfold resource_Merge
  by_cases h : r.schemaURL = ""
  · simp [h]
    cases r; simp_all
  · simp [h]

theorem resource_New_fixed (w : World) :
    ((resource_New w newResourceOptions).1.lookup semconv_ServiceNameKey
        = some (.str "OBSERVABILITY-MEDIUM-SERVICE-EXAMPLE"))
    ∧ (resource_New w newResourceOptions).1.lookup "environment" = some (.str "DEVELOPMENT") := by
  have hopts : newResourceOptions =
      [.WithFromEnv, .WithProcess, .WithTelemetrySDK, .WithHost] ++
        [.WithAttributes fixedAttributes] := rfl
  unfold resource_New
  rw [hopts, List.foldl_append]
  generalize List.foldl (detectStep w) (none, []) _ = acc
  obtain ⟨r, hr, h1, h2⟩ := detectStep_fixedAttributes w acc
  simp only [List.foldl, hr, resource_Merge_empty]
  constructor <;> (split <;> simp_all)


theorem newResource_error (w : World) (s : State) (e : GoError)
    (h : (resource_New w newResourceOptions).2 = some e) :
    newResource w s = .exited 1
      { s with log := s.log ++ ["Failed to create resource: " ++ e],
               trace := s.trace ++ [.resourceNew newResourceOptions] } := by
  unfold newResource
  rcases hr : resource_New w newResourceOptions with ⟨res, err⟩
  rw [hr] at h
  simp only at h
  subst h
  simp [log_Fatalf, State.emit, String.append_assoc]

theorem newResource_ok (w : World) (s : State)
    (h : (resource_New w newResourceOptions).2 = none) :
    newResource w s = .returned (resource_New w newResourceOptions).1
      { s with trace := s.trace ++ [.resourceNew newResourceOptions] } := by
  unfold newResource
  rcases hr : resource_New w newResourceOptions with ⟨res, err⟩
  rw [hr] at h
  simp only at h
  subst h
  simp [State.emit]

theorem init_exporter_error (w : World) (s : State) (e : GoError)
    (h : w.jaegerNew collectorArg = .error e) :
    InitProviderWithJaegerExporter w s = .exited 1
      { s with log := s.log ++ ["error: " ++ e],
               trace := s.trace ++ [.jaegerNew collectorArg] } := by
  have h1 : exporterToJaeger w s = (.error e, s.emit (.jaegerNew collectorArg)) := by
    simp [exporterToJaeger, ← h, collectorArg]
  simp [InitProviderWithJaegerExporter, h1, log_Fatalf, State.emit]

theorem init_resource_error (w : World) (s : State) (exp : Exporter) (e : GoError)
    (hx : w.jaegerNew collectorArg = .ok exp)
    (hr : (resource_New w newResourceOptions).2 = some e) :
    InitProviderWithJaegerExporter w s = .exited 1
      { s with log := s.log ++ ["Failed to create resource: " ++ e],
               trace := s.trace ++ [.jaegerNew collectorArg, .getenv "GO_ENV", .newBatcher exp,
                 .resourceNew newResourceOptions] } := by
  have h1 : exporterToJaeger w s = (.ok exp, s.emit (.jaegerNew collectorArg)) := by
    simp [exporterToJaeger, ← hx, collectorArg]
  simp [InitProviderWithJaegerExporter, h1, getSampler_snd, trace_WithBatcher,
    newResource_error w _ e hr, Outcome.bind, State.emit]

theorem init_ok (w : World) (s : State) (exp : Exporter)
    (hx : w.jaegerNew collectorArg = .ok exp)
    (hr : (resource_New w newResourceOptions).2 = none) :
    InitProviderWithJaegerExporter w s = .returned (.Shutdown (builtProvider w s exp), none)
      { global := some (builtProvider w s exp),
        providers := s.providers ++ [builtProvider w s exp],
        log := s.log,
        trace := s.trace ++ [.jaegerNew collectorArg, .getenv "GO_ENV", .newBatcher exp,
          .resourceNew newResourceOptions, .newTracerProvider (builtProvider w s exp),
          .setTracerProvider (builtProvider w s exp)] } := by
  have h1 : exporterToJaeger w s = (.ok exp, s.emit (.jaegerNew collectorArg)) := by
    simp [exporterToJaeger, ← hx, collectorArg]
  have h2 : ∀ t, (getSampler w t).1 = (getSampler w s).1 := by
    intro t; rw [getSampler_fst, getSampler_fst]
  simp [InitProviderWithJaegerExporter, h1, trace_WithBatcher,
    newResource_ok w _ hr, Outcome.bind, State.emit, trace_NewTracerProvider,
    otel_SetTracerProvider, builtProvider, getSampler_snd, h2]


theorem main_exporter_error (w : World) (s : State) (e : GoError)
    (h : w.jaegerNew collectorArg = .error e) :
    main w s = .exited 1
      { s with log := s.log ++ ["error: " ++ e],
               trace := s.trace ++ [.jaegerNew collectorArg] } := by
  simp [main, init_exporter_error w s e h, Outcome.bind]

theorem main_resource_error (w : World) (s : State) (exp : Exporter) (e : GoError)
    (hx : w.jaegerNew collectorArg = .ok exp)
    (hr : (resource_New w newResourceOptions).2 = some e) :
    main w s = .exited 1
      { s with log := s.log ++ ["Failed to create resource: " ++ e],
               trace := s.trace ++ [.jaegerNew collectorArg, .getenv "GO_ENV", .newBatcher exp,
                 .resourceNew newResourceOptions] } := by
  simp [main, init_resource_error w s exp e hx hr, Outcome.bind]

theorem main_ok_returns (w : World) (s : State) (exp : Exporter) (r : Option GoError)
    (hx : w.jaegerNew collectorArg = .ok exp)
    (hr : (resource_New w newResourceOptions).2 = none)
    (hrun : w.run = .returns r) :
    main w s = .returned ()
      { global := some (builtProvider w s exp),
        providers := s.providers ++ [builtProvider w s exp],
        log := s.log,
        trace := s.trace ++ [.jaegerNew collectorArg, .getenv "GO_ENV", .newBatcher exp,
          .resourceNew newResourceOptions, .newTracerProvider (builtProvider w s exp),
          .setTracerProvider (builtProvider w s exp), .ginDefault,
          .use "OBSERVABILITY-MEDIUM-SERVICE-EXAMPLE", .route "GET" "/ping", .run,
          .runReturned, .call (.Shutdown (builtProvider w s exp))] } := by
  simp [main, init_ok w s exp hx hr, Outcome.bind, gin_Run, hrun, callFunc, State.emit]

theorem main_ok_forever (w : World) (s : State) (exp : Exporter)
    (hx : w.jaegerNew collectorArg = .ok exp)
    (hr : (resource_New w newResourceOptions).2 = none)
    (hrun : w.run = .servesForever) :
    main w s = .blocked
      { global := some (builtProvider w s exp),
        providers := s.providers ++ [builtProvider w s exp],
        log := s.log,
        trace := s.trace ++ [.jaegerNew collectorArg, .getenv "GO_ENV", .newBatcher exp,
          .resourceNew newResourceOptions, .newTracerProvider (builtProvider w s exp),
          .setTracerProvider (builtProvider w s exp), .ginDefault,
          .use "OBSERVABILITY-MEDIUM-SERVICE-EXAMPLE", .route "GET" "/ping", .run] } := by
  simp [main, init_ok w s exp hx hr, Outcome.bind, gin_Run, hrun, State.emit]

/-- C1: `getSampler` is a total function of the value of `GO_ENV` alone. For every
environment it returns `ParentBased(TraceIDRatioBased(0.5))` when the value read is
exactly `production` and `AlwaysSample` otherwise, in particular for `development`, the
empty string (which is what an unset variable reads as), `staging` and case variants;
two environments that agree on `GO_ENV` get the same sampler; and the call does nothing
but read that variable. -/
theorem getSampler_total_on_GO_ENV (w : World) (s : State) :
    ((getSampler w s).1 =
        if w.getenv "GO_ENV" = "production" then Sampler.ParentBased (.TraceIDRatioBased 0.5)
        else Sampler.AlwaysSample)
    ∧ (w.environ.lookup "GO_ENV" = none →
        w.getenv "GO_ENV" = "" ∧ (getSampler w s).1 = Sampler.AlwaysSample)
    ∧ (∀ v ∈ ["development", "", "staging", "PRODUCTION", "Production"],
        w.getenv "GO_ENV" = v → (getSampler w s).1 = Sampler.AlwaysSample)
    ∧ (∀ (w' : World) (s' : State), w'.getenv "GO_ENV" = w.getenv "GO_ENV" →
        (getSampler w' s').1 = (getSampler w s).1)
    ∧ (getSampler w s).2 = s.emit (.getenv "GO_ENV") := by
  refine ⟨getSampler_fst w s, ?_, ?_, ?_, getSampler_snd w s⟩
  · intro h
    have h0 : w.getenv "GO_ENV" = "" := by simp [World.getenv, h]
    refine ⟨h0, ?_⟩
    rw [getSampler_fst, h0]
    decide
  · intro v hv hw
    rw [getSampler_fst, hw]
    simp only [List.mem_cons, List.mem_singleton, List.not_mem_nil, or_false] at hv
    rcases hv with h | h | h | h | h <;> subst h <;> decide
  · intro w' s' h
    rw [getSampler_fst, getSampler_fst, h]

/-- Witness of C1: two different environments with `GO_ENV=production` get the same
sampler, the parent-based one. -/
theorem getSampler_total_on_GO_ENV_witness :
    (getSampler worldProductionBare processStart).1
        = (getSampler worldProduction processStart).1
    ∧ (getSampler worldProduction processStart).1
        = Sampler.ParentBased (.TraceIDRatioBased 0.5) :=
  ⟨(getSampler_total_on_GO_ENV worldProduction processStart).2.2.2.1
      worldProductionBare processStart (by decide),
   (getSampler_total_on_GO_ENV worldProduction processStart).1.trans (if_pos (by decide))⟩

/-- C2: whenever `newResource` returns, the resource it returns has the service-name
attribute with the value `OBSERVABILITY-MEDIUM-SERVICE-EXAMPLE` (which is not empty) and
the attribute `environment` with the value `DEVELOPMENT`, whatever the environment
(`GO_ENV` included) and whatever the earlier detectors report: the explicit attributes
are merged last. -/
theorem newResource_fixed_attributes (w : World) (s s' : State) (res : Resource)
    (h : newResource w s = .returned res s') :
    res.lookup semconv_ServiceNameKey = some (.str "OBSERVABILITY-MEDIUM-SERVICE-EXAMPLE")
    ∧ "OBSERVABILITY-MEDIUM-SERVICE-EXAMPLE" ≠ ""
    ∧ res.lookup "environment" = some (.str "DEVELOPMENT")
    ∧ newResourceOptions.getLast? = some (.WithAttributes fixedAttributes) := by
  have hres : res = (resource_New w newResourceOptions).1 := by
    cases hr : (resource_New w newResourceOptions).2 with
    | none =>
      rw [newResource_ok w s hr] at h
      cases h
      rfl
    | some e =>
      rw [newResource_error w s e hr] at h
      cases h
  subst hres
  exact ⟨(resource_New_fixed w).1, by decide, (resource_New_fixed w).2, rfl⟩

/-- Witness of C2: in the production world the environment declares the service name
`other`, and the resource still carries the fixed one. -/
theorem newResource_fixed_attributes_witness :
    (resource_New worldProduction newResourceOptions).1.lookup semconv_ServiceNameKey
      = some (.str "OBSERVABILITY-MEDIUM-SERVICE-EXAMPLE") :=
  (newResource_fixed_attributes worldProduction processStart
    (processStart.emit (.resourceNew newResourceOptions))
    (resource_New worldProduction newResourceOptions).1 (by decide)).1

/-- C7: whatever the world (the environment included), `exporterToJaeger` calls
`jaeger.New` exactly once, with the collector endpoint
`http://localhost:14278/api/traces`, and returns what that call returns; in a whole run
of `main` every call of `jaeger.New` has this argument. -/
theorem exporterToJaeger_fixed_endpoint (w : World) (s : State) :
    s.newEvents (exporterToJaeger w s).2
        = [.jaegerNew (.WithCollectorEndpoint
            [.WithEndpoint "http://localhost:14278/api/traces"])]
    ∧ (exporterToJaeger w s).1
        = w.jaegerNew (.WithCollectorEndpoint
            [.WithEndpoint "http://localhost:14278/api/traces"])
    ∧ ∀ o, Event.jaegerNew o ∈ s.newEvents (main w s).state →
        o = .WithCollectorEndpoint [.WithEndpoint "http://localhost:14278/api/traces"] := by
  refine ⟨by simp [exporterToJaeger, State.newEvents, State.emit], rfl, ?_⟩
  intro o ho
  change o = collectorArg
  cases hx : w.jaegerNew collectorArg with
  | error e =>
    rw [main_exporter_error w s e hx] at ho
    simpa [Outcome.state, State.newEvents] using ho
  | ok exp =>
    cases hr : (resource_New w newResourceOptions).2 with
    | some e =>
      rw [main_resource_error w s exp e hx hr] at ho
      simpa [Outcome.state, State.newEvents] using ho
    | none =>
      cases hrun : w.run with
      | returns r =>
        rw [main_ok_returns w s exp r hx hr hrun] at ho
        simpa [Outcome.state, State.newEvents] using ho
      | servesForever =>
        rw [main_ok_forever w s exp hx hr hrun] at ho
        simpa [Outcome.state, State.newEvents] using ho

/-- Witness of C7: the one `jaeger.New` call of the production run. -/
theorem exporterToJaeger_fixed_endpoint_witness :
    collectorArg
      = .WithCollectorEndpoint [.WithEndpoint "http://localhost:14278/api/traces"] :=
  (exporterToJaeger_fixed_endpoint worldProduction processStart).2.2 collectorArg
    (by decide)

/-- C3: the bootstrap is fail-fast. When `jaeger.New` fails, or `resource.New` fails,
`InitProviderWithJaegerExporter` does not return: the process exits with status 1
through `log.Fatalf`. At that point the global tracer provider is the one from before,
no provider has been built or installed, and `main` has exited in the same state
without building the engine, registering a route or serving. -/
theorem bootstrap_fail_fast (w : World) (s : State)
    (h : (∃ e, (exporterToJaeger w s).1 = .error e)
          ∨ (∃ e, (resource_New w newResourceOptions).2 = some e)) :
    ∃ s', InitProviderWithJaegerExporter w s = .exited 1 s'
      ∧ main w s = .exited 1 s'
      ∧ s.newLog s' ≠ []
      ∧ s'.global = s.global
      ∧ s'.providers = s.providers
      ∧ ∀ e ∈ s.newEvents s', e.isInstall = false ∧ e.isServe = false := by
  cases hx : w.jaegerNew collectorArg with
  | error e =>
    refine ⟨_, init_exporter_error w s e hx, main_exporter_error w s e hx, ?_, rfl, rfl, ?_⟩
    · simp [State.newLog]
    · simp [State.newEvents, Event.isInstall, Event.isServe]
  | ok exp =>
    have hr : ∃ e, (resource_New w newResourceOptions).2 = some e := by
      rcases h with ⟨e, he⟩ | h
      · have : w.jaegerNew collectorArg = .error e := he
        rw [hx] at this
        cases this
      · exact h
    obtain ⟨e, hr⟩ := hr
    refine ⟨_, init_resource_error w s exp e hx hr, main_resource_error w s exp e hx hr,
      ?_, rfl, rfl, ?_⟩
    · simp [State.newLog]
    · simp [State.newEvents, Event.isInstall, Event.isServe]

/-- Witness of C3: with the host detector failing, the bootstrap exits and leaves the
state of the process start but for one log line and the calls made so far. -/
theorem bootstrap_fail_fast_witness :
    ∃ s', InitProviderWithJaegerExporter worldNoHost processStart = .exited 1 s'
      ∧ main worldNoHost processStart = .exited 1 s'
      ∧ processStart.newLog s' ≠ []
      ∧ s'.global = processStart.global
      ∧ s'.providers = processStart.providers
      ∧ ∀ e ∈ processStart.newEvents s', e.isInstall = false ∧ e.isServe = false :=
  bootstrap_fail_fast worldNoHost processStart
    (Or.inr ⟨"detecting resources: [hostname unavailable]", by decide⟩)

/-- C4: the error return of `InitProviderWithJaegerExporter` is unreachable. Whenever the
function returns, the error is nil and the shutdown function is not nil; so `main`
never takes its `err != nil` branch, that is, no run of `main` logs the line
`Failed to initialize opentelemetry provider: ...`. -/
theorem init_error_return_unreachable (w : World) (s : State) :
    (∀ (f : FuncValue) (err : Option GoError) (s' : State),
        InitProviderWithJaegerExporter w s = .returned (f, err) s' →
          err = none ∧ f ≠ FuncValue.nil)
    ∧ ∀ e : GoError,
        "Failed to initialize opentelemetry provider" ++ ": " ++ e
          ∉ s.newLog (main w s).state := by
  have hne1 : ∀ e1 e2 : String,
      "Failed to initialize opentelemetry provider" ++ ": " ++ e1 ≠ "error: " ++ e2 := by
    intro e1 e2 h
    have h2 := congrArg String.data h
    simp at h2
  have hne2 : ∀ e1 e2 : String,
      "Failed to initialize opentelemetry provider" ++ ": " ++ e1
        ≠ "Failed to create resource: " ++ e2 := by
    intro e1 e2 h
    have h2 := congrArg String.data h
    simp at h2
  cases hx : w.jaegerNew collectorArg with
  | error e =>
    constructor
    · intro f err s' h
      rw [init_exporter_error w s e hx] at h
      cases h
    · intro e1
      rw [main_exporter_error w s e hx]
      simpa [Outcome.state, State.newLog] using hne1 e1 e
  | ok exp =>
    cases hr : (resource_New w newResourceOptions).2 with
    | some e =>
      constructor
      · intro f err s' h
        rw [init_resource_error w s exp e hx hr] at h
        cases h
      · intro e1
        rw [main_resource_error w s exp e hx hr]
        simpa [Outcome.state, State.newLog] using hne2 e1 e
    | none =>
      constructor
      · intro f err s' h
        rw [init_ok w s exp hx hr] at h
        cases h
        exact ⟨rfl, by simp⟩
      · intro e1
        cases hrun : w.run with
        | returns r =>
          rw [main_ok_returns w s exp r hx hr hrun]
          simp [Outcome.state, State.newLog]
        | servesForever =>
          rw [main_ok_forever w s exp hx hr hrun]
          simp [Outcome.state, State.newLog]

/-- Witness of C4: the production bootstrap returns, with a nil error and the shutdown
method of the provider it built. -/
theorem init_error_return_unreachable_witness :
    (none : Option GoError) = none
      ∧ FuncValue.Shutdown (builtProvider worldProduction processStart ⟨1⟩) ≠ FuncValue.nil :=
  (init_error_return_unreachable worldProduction processStart).1
    (.Shutdown (builtProvider worldProduction processStart ⟨1⟩)) none
    (InitProviderWithJaegerExporter worldProduction processStart).state
    (init_ok worldProduction processStart ⟨1⟩ rfl (by decide))

/-- C5: when `exporterToJaeger` returns an exporter and `newResource` returns a resource,
`InitProviderWithJaegerExporter` returns, whatever the global provider was before. It
builds exactly one provider, from the sampler of `getSampler`, a batcher over that
exporter and that resource; afterwards this provider is the global one, and the
function returned is the `Shutdown` method of this provider, with a nil error. -/
theorem init_installs_provider (w : World) (s se sr : State) (exp : Exporter)
    (res : Resource)
    (hexp : exporterToJaeger w s = (.ok exp, se))
    (hres : newResource w s = .returned res sr) :
    ∃ tp s',
      InitProviderWithJaegerExporter w s = .returned (.Shutdown tp, none) s'
      ∧ tp.options = [.WithSampler (getSampler w s).1, .WithBatcher exp, .WithResource res]
      ∧ tp.id = s.providers.length
      ∧ Event.newBatcher exp ∈ s.newEvents s'
      ∧ s'.providers = s.providers ++ [tp]
      ∧ (s.newEvents s').filter Event.isNewProvider
          = [.newTracerProvider tp]
      ∧ (s.newEvents s').filter Event.isInstall = [.setTracerProvider tp]
      ∧ s'.global = some tp
      ∧ s'.log = s.log := by
  have hx : w.jaegerNew collectorArg = .ok exp := congrArg Prod.fst hexp
  have hr : (resource_New w newResourceOptions).2 = none := by
    cases hr : (resource_New w newResourceOptions).2 with
    | none => rfl
    | some e =>
      rw [newResource_error w s e hr] at hres
      cases hres
  have hres' : res = (resource_New w newResourceOptions).1 := by
    rw [newResource_ok w s hr] at hres
    cases hres
    rfl
  subst hres'
  refine ⟨builtProvider w s exp, _, init_ok w s exp hx hr, rfl, rfl, ?_, rfl, ?_, ?_, rfl,
    rfl⟩
  · simp [State.newEvents]
  · simp [State.newEvents, List.filter, Event.isNewProvider]
  · simp [State.newEvents, List.filter, Event.isInstall]

/-- Witness of C5: the production bootstrap replaces a provider installed earlier. -/
theorem init_installs_provider_witness :
    ∃ tp s',
      InitProviderWithJaegerExporter worldProduction processWithProvider
        = .returned (.Shutdown tp, none) s'
      ∧ tp.options = [.WithSampler (getSampler worldProduction processWithProvider).1,
          .WithBatcher ⟨1⟩, .WithResource (resource_New worldProduction newResourceOptions).1]
      ∧ s'.global = some tp
      ∧ s'.global ≠ processWithProvider.global :=
  let ⟨tp, s', h1, h2, _, _, _, _, _, h6, _⟩ :=
    init_installs_provider worldProduction processWithProvider
      (processWithProvider.emit (.jaegerNew collectorArg))
      (processWithProvider.emit (.resourceNew newResourceOptions))
      ⟨1⟩ (resource_New worldProduction newResourceOptions).1 rfl (by decide)
  ⟨tp, s', h1, h2, h6, by
    rw [h6]
    intro h
    have := congrArg (Option.map TracerProvider.options) h
    rw [Option.map_some', h2] at this
    simp [processWithProvider] at this⟩

/-- C6: the service name `main` passes to the tracing middleware equals the value
`newResource` sets for the service-name attribute, and both are the literal
`OBSERVABILITY-MEDIUM-SERVICE-EXAMPLE`: it is the value of that attribute in the
resource `newResource` returns, and the only value `newResource` passes for that key to
`resource.WithAttributes`. -/
theorem middleware_name_matches_resource (w : World) (s sr : State) (res : Resource)
    (name : String)
    (hres : newResource w s = .returned res sr)
    (huse : Event.use name ∈ s.newEvents (main w s).state) :
    res.lookup semconv_ServiceNameKey = some (.str name)
    ∧ name = "OBSERVABILITY-MEDIUM-SERVICE-EXAMPLE"
    ∧ ∀ opts kvs v, Event.resourceNew opts ∈ s.newEvents (main w s).state →
        ResourceOption.WithAttributes kvs ∈ opts →
        (⟨semconv_ServiceNameKey, v⟩ : KeyValue) ∈ kvs → v = .str name := by
  have hr : (resource_New w newResourceOptions).2 = none := by
    cases hr : (resource_New w newResourceOptions).2 with
    | none => rfl
    | some e =>
      rw [newResource_error w s e hr] at hres
      cases hres
  have hres' : res = (resource_New w newResourceOptions).1 := by
    rw [newResource_ok w s hr] at hres
    cases hres
    rfl
  have hname : name = "OBSERVABILITY-MEDIUM-SERVICE-EXAMPLE" := by
    cases hx : w.jaegerNew collectorArg with
    | error e =>
      rw [main_exporter_error w s e hx] at huse
      simp [Outcome.state, State.newEvents] at huse
    | ok exp =>
      cases hrun : w.run with
      | returns r =>
        rw [main_ok_returns w s exp r hx hr hrun] at huse
        simpa [Outcome.state, State.newEvents] using huse
      | servesForever =>
        rw [main_ok_forever w s exp hx hr hrun] at huse
        simpa [Outcome.state, State.newEvents] using huse
  subst hname
  subst hres'
  refine ⟨(resource_New_fixed w).1, rfl, ?_⟩
  intro opts kvs v hev hopt hkv
  have hopts : opts = newResourceOptions := by
    cases hx : w.jaegerNew collectorArg with
    | error e =>
      rw [main_exporter_error w s e hx] at hev
      simp [Outcome.state, State.newEvents] at hev
    | ok exp =>
      cases hrun : w.run with
      | returns r =>
        rw [main_ok_returns w s exp r hx hr hrun] at hev
        simpa [Outcome.state, State.newEvents] using hev
      | servesForever =>
        rw [main_ok_forever w s exp hx hr hrun] at hev
        simpa [Outcome.state, State.newEvents] using hev
  subst hopts
  simp only [newResourceOptions, List.mem_cons, List.mem_singleton, List.not_mem_nil,
    or_false, reduceCtorEq, false_or, ResourceOption.WithAttributes.injEq] at hopt
  subst hopt
  simp only [List.mem_cons, List.mem_singleton, List.not_mem_nil, or_false,
    KeyValue.mk.injEq] at hkv
  rcases hkv with ⟨_, hv⟩ | ⟨hk, _⟩
  · exact hv
  · exact absurd hk (by decide)

/-- Witness of C6: the production run registers the middleware under the name its
resource carries. -/
theorem middleware_name_matches_resource_witness :
    (resource_New worldProduction newResourceOptions).1.lookup semconv_ServiceNameKey
      = some (.str "OBSERVABILITY-MEDIUM-SERVICE-EXAMPLE")
    ∧ "OBSERVABILITY-MEDIUM-SERVICE-EXAMPLE" = "OBSERVABILITY-MEDIUM-SERVICE-EXAMPLE" :=
  let h := middleware_name_matches_resource worldProduction processStart
    (processStart.emit (.resourceNew newResourceOptions))
    (resource_New worldProduction newResourceOptions).1
    "OBSERVABILITY-MEDIUM-SERVICE-EXAMPLE" (by decide) (by decide)
  ⟨h.1, h.2.1⟩

/-- C8: when the bootstrap returns the hook `f` and `r.Run()` returns, `main` returns,
and among the calls it made the hook was invoked exactly once, as the last call, right
after `Run` returned and so after serving started. While `Run` has not returned the hook
is not invoked, and when the bootstrap ends the process instead, it is never invoked. -/
theorem shutdown_hook_invoked_once (w : World) (s : State) :
    (∀ (f : FuncValue) (s1 : State) (r : Option GoError),
        InitProviderWithJaegerExporter w s = .returned (f, none) s1 → w.run = .returns r →
        ∃ pre s', main w s = .returned () s'
          ∧ s.newEvents s' = pre ++ [.runReturned, .call f]
          ∧ Event.run ∈ pre
          ∧ (∀ e ∈ pre, e.isCall = false)
          ∧ (s.newEvents s').countP Event.isCall = 1
          ∧ (s.newEvents s').count (.call f) = 1)
    ∧ (w.run = .servesForever →
          (s.newEvents (main w s).state).countP Event.isCall = 0)
    ∧ (∀ (c : Nat) (s1 : State),
        InitProviderWithJaegerExporter w s = .exited c s1 →
          (s.newEvents (main w s).state).countP Event.isCall = 0) := by
  cases hx : w.jaegerNew collectorArg with
  | error e =>
    have h0 : (s.newEvents (main w s).state).countP Event.isCall = 0 := by
      rw [main_exporter_error w s e hx]
      simp [Outcome.state, State.newEvents, Event.isCall]
    refine ⟨?_, fun _ => h0, fun _ _ _ => h0⟩
    intro f s1 r h
    rw [init_exporter_error w s e hx] at h
    cases h
  | ok exp =>
    cases hr : (resource_New w newResourceOptions).2 with
    | some e =>
      have h0 : (s.newEvents (main w s).state).countP Event.isCall = 0 := by
        rw [main_resource_error w s exp e hx hr]
        simp [Outcome.state, State.newEvents, Event.isCall, List.countP_cons]
      refine ⟨?_, fun _ => h0, fun _ _ _ => h0⟩
      intro f s1 r h
      rw [init_resource_error w s exp e hx hr] at h
      cases h
    | none =>
      refine ⟨?_, ?_, ?_⟩
      · intro f s1 r h hrun
        rw [init_ok w s exp hx hr] at h
        cases h
        refine ⟨[.jaegerNew collectorArg, .getenv "GO_ENV", .newBatcher exp,
          .resourceNew newResourceOptions, .newTracerProvider (builtProvider w s exp),
          .setTracerProvider (builtProvider w s exp), .ginDefault,
          .use "OBSERVABILITY-MEDIUM-SERVICE-EXAMPLE", .route "GET" "/ping", .run], _,
          main_ok_returns w s exp r hx hr hrun, ?_, ?_, ?_, ?_, ?_⟩
        · simp [State.newEvents]
        · simp
        · simp [Event.isCall]
        · simp [State.newEvents, Event.isCall, List.countP_cons]
        · simp [State.newEvents, List.count_cons]
      · intro hrun
        rw [main_ok_forever w s exp hx hr hrun]
        simp [Outcome.state, State.newEvents, Event.isCall, List.countP_cons]
      · intro c s1 h
        rw [init_ok w s exp hx hr] at h
        cases h

/-- Witness of C8: the production run ends with the server closed and the hook invoked
once. -/
theorem shutdown_hook_invoked_once_witness :
    ∃ pre s', main worldProduction processStart = .returned () s'
      ∧ processStart.newEvents s'
          = pre ++ [.runReturned,
              .call (.Shutdown (builtProvider worldProduction processStart ⟨1⟩))]
      ∧ (processStart.newEvents s').countP Event.isCall = 1 :=
  let ⟨pre, s', h1, h2, _, _, h5, _⟩ :=
    (shutdown_hook_invoked_once worldProduction processStart).1
      (.Shutdown (builtProvider worldProduction processStart ⟨1⟩))
      (InitProviderWithJaegerExporter worldProduction processStart).state
      (some "http: Server closed")
      (init_ok worldProduction processStart ⟨1⟩ rfl (by decide)) rfl
  ⟨pre, s', h1, h2, h5⟩

/-- C10, as stated, fails. In the production run the stages are invoked in the order
exporter, sampler, resource, not resource, sampler, exporter; and when both
constructions would fail, the only stage invoked is the exporter constructor and the
line logged is its line, not the line of resource creation. -/
theorem init_stage_order_counterexample :
    stagesOf (processStart.newEvents
        (InitProviderWithJaegerExporter worldProduction processStart).state)
      ≠ [.resource, .sampler, .exporter]
    ∧ (∃ e, (resource_New worldBothFail newResourceOptions).2 = some e)
    ∧ (∃ e, (exporterToJaeger worldBothFail processStart).1 = .error e)
    ∧ (InitProviderWithJaegerExporter worldBothFail processStart).state.log
        = ["error: invalid collector URL"]
    ∧ Event.getenv "GO_ENV" ∉
        (InitProviderWithJaegerExporter worldBothFail processStart).state.trace := by
  refine ⟨by decide, ⟨"detecting resources: [hostname unavailable]", by decide⟩,
    ⟨"invalid collector URL", rfl⟩, by decide, by decide⟩

/-- C10, amended: the stages are invoked in the order exporter constructor, sampler
selector, resource builder. The exporter is constructed first in every run; when it
fails nothing else is invoked and the line logged is `error: e`, also when the resource
construction would fail too; when it succeeds the environment flag is read next and
`resource.New` is called after it. -/
theorem init_stage_order (w : World) (s : State) :
    (∀ e, (exporterToJaeger w s).1 = .error e →
        stagesOf (s.newEvents (InitProviderWithJaegerExporter w s).state) = [.exporter]
        ∧ s.newLog (InitProviderWithJaegerExporter w s).state = ["error: " ++ e])
    ∧ (∀ exp, (exporterToJaeger w s).1 = .ok exp →
        stagesOf (s.newEvents (InitProviderWithJaegerExporter w s).state)
          = [.exporter, .sampler, .resource]
        ∧ ∃ rest, s.newEvents (InitProviderWithJaegerExporter w s).state
            = [.jaegerNew collectorArg, .getenv "GO_ENV", .newBatcher exp,
               .resourceNew newResourceOptions] ++ rest) := by
  constructor
  · intro e he
    have hx : w.jaegerNew collectorArg = .error e := he
    rw [init_exporter_error w s e hx]
    simp [Outcome.state, State.newLog, State.newEvents, stagesOf, Event.stage]
  · intro exp he
    have hx : w.jaegerNew collectorArg = .ok exp := he
    cases hr : (resource_New w newResourceOptions).2 with
    | some e =>
      rw [init_resource_error w s exp e hx hr]
      simp [Outcome.state, State.newEvents, stagesOf, Event.stage]
    | none =>
      rw [init_ok w s exp hx hr]
      simp [Outcome.state, State.newEvents, stagesOf, Event.stage]

/-- Witness of C10, amended: the run in which both constructions would fail. -/
theorem init_stage_order_witness :
    stagesOf (processStart.newEvents
        (InitProviderWithJaegerExporter worldBothFail processStart).state) = [.exporter]
    ∧ processStart.newLog (InitProviderWithJaegerExporter worldBothFail processStart).state
        = ["error: " ++ "invalid collector URL"] :=
  (init_stage_order worldBothFail processStart).1 "invalid collector URL" rfl

end telemetry
